import Mathlib

/-!
Verification development for a browser extension that overlays machine
translations on images.  The definitions below are shallow embeddings of the
TypeScript source: the region extractor, garbage filter and geometry mapper of
src/content/index.ts, the translation orchestrator of the ML pipeline module,
and the popup's delivery/retry protocol.  JavaScript numbers are modelled as
rationals, strings as Lean strings (code points; the sources only ever compare
BMP characters, where JS UTF-16 lengths agree).
-/

namespace MangaTL

/-! ## String utilities (JS `replace(/\s+/g, ' ')`, `trim`, `split`, `join`, `includes`) -/

/-- Whitespace test modelling the characters JS `\s` matches in the texts at
hand (space, tab, newline, carriage return). -/
def isWS (c : Char) : Bool :=
  c == ' ' || c == '\t' || c == '\n' || c == '\r'

/-- One pass of `replace(/\s+/g, ' ')`: each maximal whitespace run becomes a
single space.  The flag records whether the previous character was whitespace. -/
def collapseWSAux : Bool → List Char → List Char
  | _, [] => []
  | prevWS, c :: rest =>
    if isWS c then
      if prevWS then collapseWSAux true rest
      else ' ' :: collapseWSAux true rest
    else c :: collapseWSAux false rest

/-- Remove leading and trailing whitespace from a character list (JS `trim`). -/
def trimList (l : List Char) : List Char :=
  ((l.dropWhile isWS).reverse.dropWhile isWS).reverse

/-- JS `s.trim()`. -/
def jsTrim (s : String) : String := String.mk (trimList s.toList)

/-- The source's `normalize`: `text.replace(/\s+/g, ' ').trim()`. -/
def normalizeStr (s : String) : String :=
  String.mk (trimList (collapseWSAux false s.toList))

/-- JS `s.split(' ')`, keeping empty fragments, accumulator holds the current
word reversed. -/
def splitOnSpaceAux : List Char → List Char → List String
  | [], acc => [String.mk acc.reverse]
  | c :: rest, acc =>
    if c == ' ' then String.mk acc.reverse :: splitOnSpaceAux rest []
    else splitOnSpaceAux rest (c :: acc)

/-- JS `s.split(' ')`. -/
def splitWords (s : String) : List String := splitOnSpaceAux s.toList []

/-- JS `words.join(' ')`. -/
def joinSpace : List String → String
  | [] => ""
  | [s] => s
  | s :: rest => s ++ " " ++ joinSpace rest

/-- Number of non-overlapping left-to-right occurrences of `sep` in `l`,
i.e. JS `l.split(sep).length - 1` for a non-empty `sep`.  The fuel argument
(instantiated with the list length, which bounds the recursion depth) only
serves structural termination. -/
def countOccAux : Nat → List Char → List Char → Nat
  | 0, _, _ => 0
  | _ + 1, _, [] => 0
  | fuel + 1, sep, c :: rest =>
    if !sep.isEmpty && sep.isPrefixOf (c :: rest) then
      1 + countOccAux fuel sep ((c :: rest).drop sep.length)
    else countOccAux fuel sep rest

/-- Occurrence count of `sep` in `l` (non-overlapping, scanning left to right). -/
def countOcc (sep l : List Char) : Nat := countOccAux l.length sep l

/-- JS `s.includes(sub)` for non-empty `sub`. -/
def jsIncludes (s sub : String) : Bool :=
  decide (0 < countOcc sub.toList s.toList)

/-! ## Garbage/Quality Filter (`isGarbage` in src/content/index.ts) -/

/-- Character class of the source's regexes:
`[a-zA-Z0-9　-〿぀-ゟ゠-ヿ＀-ﾟ一-龯]`. -/
def isAlnumCJK (c : Char) : Bool :=
  decide ((48 ≤ c.toNat ∧ c.toNat ≤ 57) ∨ (65 ≤ c.toNat ∧ c.toNat ≤ 90) ∨
    (97 ≤ c.toNat ∧ c.toNat ≤ 122) ∨
    (0x3000 ≤ c.toNat ∧ c.toNat ≤ 0x303f) ∨ (0x3040 ≤ c.toNat ∧ c.toNat ≤ 0x309f) ∨
    (0x30a0 ≤ c.toNat ∧ c.toNat ≤ 0x30ff) ∨ (0xff00 ≤ c.toNat ∧ c.toNat ≤ 0xff9f) ∨
    (0x4e00 ≤ c.toNat ∧ c.toNat ≤ 0x9faf))

/-- `/^(.)\1+$/`: every character equals the first (a text that is a single
repeated whitespace character is already rejected by the only-symbols rule, so
ignoring the fact that `.` does not match newlines is observationally equal). -/
def allSameChar : List Char → Bool
  | [] => false
  | c :: rest => rest.all (fun d => d == c)

/-- The orchestrator's explicit blacklist of known degenerate outputs:
`text.includes('SQ of the') || text.includes('The SQ')`. -/
def blacklistHit (text : String) : Bool :=
  jsIncludes text ("SQ of the") || jsIncludes text ("The SQ")

/-- The content script's `isGarbage`, clause for clause in source order. -/
def isGarbage (text : String) : Bool :=
  if text = "" then true
  else if text.length < 2 ∧ text.toList.any isAlnumCJK = false then true
  else if text.toList.all (fun c => !(isAlnumCJK c)) then true
  else if allSameChar text.toList = true ∧ 3 < text.length then true
  else if blacklistHit text then true
  else
    let words := splitWords text
    if 6 < words.length then
      let half := words.length / 2
      if joinSpace (words.take half) = joinSpace ((words.drop half).take half) then true
      else false
    else false

/-! ## Data model (RecognitionResult / RawRegion as consumed by the extractor) -/

/-- A bounding box in source pixel space. -/
structure BBox where
  x0 : ℚ
  y0 : ℚ
  x1 : ℚ
  y1 : ℚ
deriving DecidableEq

/-- One raw item of a recognizer granularity tier; every field the source reads
optionally (`item?.bbox`, `item?.text`, `item?.confidence ?? item?.conf ?? 0`,
`item?.level`) is an `Option`. -/
structure OCRItem where
  bbox : Option BBox
  text : Option String
  confidence : Option ℚ
  conf : Option ℚ
  level : Option ℚ
deriving DecidableEq

/-- The recognition result: full text, overall confidence, optional image
dimensions and the four granularity tiers (a missing tier is `none`, matching
`Array.isArray(items) ? items : []`). -/
structure OCRResult where
  text : String
  confidence : ℚ
  imageSize : Option (ℚ × ℚ)
  blocks : Option (List OCRItem)
  paragraphs : Option (List OCRItem)
  lines : Option (List OCRItem)
  words : Option (List OCRItem)
deriving DecidableEq

/-- The object built by `mapItems` for each raw item before filtering. -/
structure MappedBlock where
  bbox : Option BBox
  text : String
  confidence : ℚ
  level : Option ℚ
deriving DecidableEq

/-- `normalize(item?.text)`: an absent text becomes `''`. -/
def normTextOpt : Option String → String
  | none => ""
  | some s => normalizeStr s

/-- The `.map` stage of `mapItems`. -/
def toMapped (item : OCRItem) : MappedBlock :=
  ⟨item.bbox, normTextOpt item.text, item.confidence.getD (item.conf.getD 0), item.level⟩

/-- JS `v || d` for an optional number: absent or zero falls back to `d`. -/
def jsOrQ : Option ℚ → ℚ → ℚ
  | none, d => d
  | some x, d => if x = 0 then d else x

/-- `ocrResult?.imageSize?.width || 1000`. -/
def imgWidthOf (r : OCRResult) : ℚ := jsOrQ (r.imageSize.map Prod.fst) 1000

/-- `ocrResult?.imageSize?.height || 1000`. -/
def imgHeightOf (r : OCRResult) : ℚ := jsOrQ (r.imageSize.map Prod.snd) 1000

/-! ## Region Extractor (`extractBlocks` in src/content/index.ts) -/

/-- The `.filter` predicate of `mapItems`, clause for clause in source order:
empty text or missing bbox, confidence below 20, garbage text, area above 80%
of the image area, degenerate aspect ratio. -/
def keepBlock (imgW imgH : ℚ) (b : MappedBlock) : Bool :=
  if b.text.length = 0 ∨ b.bbox = none then false
  else
    match b.bbox with
    | none => false
    | some bb =>
      if b.confidence < 20 then false
      else if isGarbage b.text then false
      else
        let w := bb.x1 - bb.x0
        let h := bb.y1 - bb.y0
        if w * h > imgW * imgH * (8 / 10) then false
        else if 0 < w ∧ 0 < h ∧ (60 < w / h ∨ w / h < 2 / 100) then false
        else true

/-- `mapItems`: map each raw item of the tier, then filter. -/
def mapItems (r : OCRResult) (tier : Option (List OCRItem)) : List MappedBlock :=
  ((tier.getD []).map toMapped).filter (keepBlock (imgWidthOf r) (imgHeightOf r))

/-- `extractBlocks`: try blocks, then paragraphs, then lines, then words, and
return the first tier that filters to a non-empty list (possibly `[]`). -/
def extractBlocks (r : OCRResult) : List MappedBlock :=
  let i1 := mapItems r r.blocks
  if i1.isEmpty then
    let i2 := mapItems r r.paragraphs
    if i2.isEmpty then
      let i3 := mapItems r r.lines
      if i3.isEmpty then mapItems r r.words
      else i3
    else i2
  else i1

/-! ## Geometry Mapper (`inflateBBox`, `makeOverlayBox` in src/content/index.ts) -/

/-- `inflateBBox`: pad by `Math.max(6, Math.min(w, h) * 0.08)` on all sides and
clamp into `[0, imgW] × [0, imgH]`. -/
def inflateBBox (bbox : BBox) (imgW imgH : ℚ) : BBox :=
  let w := bbox.x1 - bbox.x0
  let h := bbox.y1 - bbox.y0
  let pad := max 6 (min w h * (8 / 100))
  ⟨max 0 (bbox.x0 - pad), max 0 (bbox.y0 - pad),
    min imgW (bbox.x1 + pad), min imgH (bbox.y1 + pad)⟩

/-- Modelled from the spec: the padding `max(6, 0.08 × min(width, height))`. -/
def specPad (bbox : BBox) : ℚ :=
  max 6 ((8 / 100) * min (bbox.x1 - bbox.x0) (bbox.y1 - bbox.y0))

/-- Modelled from the spec: expand the box by `specPad` on all four sides and
clamp the result to `[0, source width] × [0, source height]`. -/
def specInflateClamp (bbox : BBox) (imgW imgH : ℚ) : BBox :=
  ⟨max 0 (bbox.x0 - specPad bbox), max 0 (bbox.y0 - specPad bbox),
    min imgW (bbox.x1 + specPad bbox), min imgH (bbox.y1 + specPad bbox)⟩

/-- The geometric outcome of `makeOverlayBox`: left/top/width styles and the
optional min-height style. -/
structure PlacedBox where
  left : ℚ
  top : ℚ
  width : ℚ
  minH : Option ℚ
deriving DecidableEq

/-- `makeOverlayBox`: clamp the width to at least 60 and at most the container
width, clamp x and y against the container, and clamp the min-height style to
the container height (absent parameters follow the source's `??` defaults,
`if (minHeight)` treats a zero min-height as absent). -/
def makeOverlayBox (x y width : ℚ) (text : String) (minHeight : Option ℚ)
    (containerWidth containerHeight : Option ℚ) : PlacedBox :=
  let maxWidth := containerWidth.getD width
  let clampedWidth := max 60 (min width maxWidth)
  let clampedX := max 0 (min x (containerWidth.getD (x + clampedWidth) - clampedWidth))
  let mh := minHeight.getD 0
  let clampedY := max 0 (min y (containerHeight.getD (y + mh) - mh))
  let minHStyle : Option ℚ :=
    match minHeight with
    | none => none
    | some m =>
      if m = 0 then none
      else some (match containerHeight with
        | none => m
        | some ch => min m ch)
  ⟨clampedX, clampedY, clampedWidth, minHStyle⟩

/-! ## Translation Orchestrator (`translateText` of the ML pipeline module) -/

/-- The environment a single `translateText` call runs in: the outcome of the
remote call (`translateViaLibre` resolves `null` on any failure, so it is an
`Option` and never throws), whether lazily initializing and invoking the local
model succeeds, and the local model's output text when it does. -/
structure TransEnv where
  remote : Option String
  localInitOk : Bool
  localOut : String
deriving DecidableEq

/-- Result of a `translateText` call: either a thrown error (local path failed,
the outer catch rethrows) or a value (`none` is the explicit rejected outcome). -/
inductive TransOutcome where
  | thrown : TransOutcome
  | value : Option String → TransOutcome
deriving DecidableEq

/-- Observable run of one `translateText` call: its outcome plus how many
remote and local translation invocations it performed. -/
structure TransRun where
  result : TransOutcome
  remoteCalls : Nat
  localCalls : Nat
deriving DecidableEq

/-- The n-gram loop detector: some 4-word window starting at `i < words.length - 4`
occurs at least 3 times in the translated string (JS counts occurrences with
`translated.split(chunk).length - 1`). -/
def hasLoopNgram (translated : String) (words : List String) : Bool :=
  (List.range (words.length - 4)).any (fun i =>
    decide (3 ≤ countOcc (joinSpace ((words.drop i).take 4)).toList translated.toList))

/-- The anti-hallucination validation applied to a translated string: only for
length > 50; the word-halving check runs when there are more than 10 words and
the 4-word n-gram check when there are more than 12. -/
def validateTranslated (translated : String) : Option String :=
  if 50 < translated.length then
    let words := splitWords translated
    let half := words.length / 2
    if 10 < words.length ∧
        joinSpace (words.take half) = joinSpace ((words.drop half).take half) then none
    else if 12 < words.length ∧ hasLoopNgram translated words = true then none
    else some translated
  else some translated

/-- JS truthiness of `remote`: present and non-empty. -/
def jsTruthyStr : Option String → Bool
  | none => false
  | some s => !(s == "")

/-- `translateText` of the pipeline module: blacklist fast-reject, then the
remote call (whose truthy result is returned as-is), then the local fallback
whose output goes through `validateTranslated`. -/
def translateText (env : TransEnv) (text : String) : TransRun :=
  if blacklistHit text then ⟨TransOutcome.value none, 0, 0⟩
  else if jsTruthyStr env.remote then ⟨TransOutcome.value env.remote, 1, 0⟩
  else if env.localInitOk then ⟨TransOutcome.value (validateTranslated env.localOut), 1, 1⟩
  else ⟨TransOutcome.thrown, 1, 1⟩

/-! ## Page Processor (`processPage`/`processImage` in src/content/index.ts) -/

/-- The two per-image idempotency flags (`img.dataset.mangaTlProcessing`,
`img.dataset.mangaTlProcessed`). -/
structure ImgFlags where
  processing : Bool
  processed : Bool
deriving DecidableEq

/-- Outcomes of the asynchronous steps of one `processImage` run: whether the
image (eventually) loads, whether the layout and overlay size polls succeed,
whether `performOCR` throws, the recognition result otherwise, and whether the
whole-image fallback `translateText` call throws.  Per-region translation
errors are caught per region in the source and cannot fail the run. -/
structure ImgEnv where
  imageLoads : Bool
  layoutReady : Bool
  overlayReady : Bool
  ocrThrows : Bool
  ocr : OCRResult
  fallbackThrows : Bool
deriving DecidableEq

/-- What the `try` block of `processImage` produced: the `success` flag at
`finally` time and the number of whole-image and per-region translation calls. -/
structure RunResult where
  success : Bool
  wholeCalls : Nat
  blockCalls : Nat
deriving DecidableEq

/-- The `try` block of `processImage`: OCR, the empty-text early return, then
either the strict whole-image fallback (confidence ≥ 30 and garbage gate) or
one translation per extracted region. -/
def runTryBody (env : ImgEnv) : RunResult :=
  if env.ocrThrows then ⟨false, 0, 0⟩
  else if jsTrim env.ocr.text = "" then ⟨false, 0, 0⟩
  else if (extractBlocks env.ocr).isEmpty then
    if env.ocr.confidence < 30 ∨ isGarbage (normalizeStr env.ocr.text) = true then ⟨false, 0, 0⟩
    else if env.fallbackThrows then ⟨false, 1, 0⟩
    else ⟨true, 1, 0⟩
  else ⟨true, 0, (extractBlocks env.ocr).length⟩

/-- One pass of the per-image workflow on the idempotency flags: the
`processPage` guard skips when either flag is set and sets `processing`
before calling `processImage`; `processImage` returns from its readiness
gates before the `try`/`finally`, and otherwise the `finally` clears
`processing` and keeps `processed` only on success. -/
def processOneImage (env : ImgEnv) (f : ImgFlags) : ImgFlags :=
  if f.processed || f.processing then f
  else if !env.imageLoads then ⟨true, f.processed⟩
  else if !env.layoutReady then ⟨true, f.processed⟩
  else if !env.overlayReady then ⟨true, f.processed⟩
  else ⟨false, (runTryBody env).success⟩

/-! ## Delivery Protocol (`sendMessage` retry loop of the popup) -/

/-- Outcome of one `chrome.tabs.sendMessage` delivery attempt. -/
inductive SendOutcome where
  | ok : SendOutcome
  | noReceiver : SendOutcome
  | otherErr : SendOutcome
deriving DecidableEq

/-- Log levels of the popup's debug console. -/
inductive LogLevel where
  | info : LogLevel
  | warn : LogLevel
  | error : LogLevel
  | success : LogLevel
deriving DecidableEq

/-- The popup's `status` state as far as the delivery protocol drives it. -/
inductive DStatus where
  | loading : DStatus
  | translating : DStatus
  | error : DStatus
deriving DecidableEq

/-- Observable state threaded through the `sendMessage` recursion: the log,
the number of delivery attempts and injection attempts, and the status. -/
structure DeliverySt where
  logs : List (LogLevel × String)
  attempts : Nat
  injections : Nat
  status : DStatus
deriving DecidableEq

/-- `const maxRetries = 3`. -/
def maxRetries : Nat := 3

/-- The recursive `sendMessage` closure.  `outcomes n` is the result of the
`n`-th delivery attempt (0-based) and `injectOk` whether
`chrome.scripting.executeScript` succeeds.  The fuel argument only serves
structural termination; `maxRetries + 1` strictly bounds the recursion depth
because every recursive call increments `retryCount` under the
`retryCount < maxRetries` guard. -/
def sendMessageAux (injectOk : Bool) (outcomes : Nat → SendOutcome) :
    Nat → Nat → DeliverySt → DeliverySt
  | 0, _, st => st
  | fuel + 1, retryCount, st =>
    if maxRetries ≤ retryCount then
      { st with
        logs := st.logs ++ [(LogLevel.error,
          "Failed after 3 attempts. Please refresh the page and try again.")],
        status := DStatus.error }
    else
      let idx := st.attempts
      let st1 : DeliverySt :=
        { st with
          logs := st.logs ++ [(LogLevel.info,
            s!"Sending message to content script... (attempt {retryCount + 1}/3)")],
          attempts := idx + 1 }
      match outcomes idx with
      | SendOutcome.ok =>
        { st1 with
          logs := st1.logs ++ [(LogLevel.success, "Content script responded")],
          status := DStatus.translating }
      | SendOutcome.noReceiver =>
        if retryCount = 0 then
          let st2 : DeliverySt :=
            { st1 with
              logs := st1.logs ++ [(LogLevel.info, "Content script not loaded, injecting...")],
              injections := st1.injections + 1 }
          if injectOk then
            sendMessageAux injectOk outcomes fuel (retryCount + 1)
              { st2 with
                logs := st2.logs ++ [(LogLevel.success,
                  "Content script injected successfully")] }
          else
            { st2 with
              logs := st2.logs ++ [(LogLevel.error, "Injection failed"),
                (LogLevel.error, "This page may not allow content scripts")],
              status := DStatus.error }
        else
          { st1 with
            logs := st1.logs ++ [(LogLevel.error,
              "Content script was injected but still not responding"),
              (LogLevel.error, "Try: 1) Refresh the page, 2) Reload extension")],
            status := DStatus.error }
      | SendOutcome.otherErr =>
        { st1 with
          logs := st1.logs ++ [(LogLevel.error, "Chrome error")],
          status := DStatus.error }

/-- The full delivery protocol run started by the popup's translate button. -/
def sendMessageRun (injectOk : Bool) (outcomes : Nat → SendOutcome) : DeliverySt :=
  sendMessageAux injectOk outcomes (maxRetries + 1) 0 ⟨[], 0, 0, DStatus.loading⟩

/-! ## Concrete inputs used by witnesses and counterexamples -/

/-- A looping translation: the 4-word window `the cat ran far` occurs 3 times,
the string is 66 characters and 16 words long. -/
def loopStr : String := "the cat ran far the cat ran far the cat ran far away from home now"

/-- A qualifying word-tier region. -/
def itemGood : OCRItem := ⟨some ⟨10, 10, 60, 30⟩, some ("Hello world"), some 90, none, none⟩

/-- A recognition result whose block tier filters to empty and whose
paragraph/line tiers are missing, while the word tier qualifies. -/
def resWordsOnly : OCRResult :=
  ⟨"Hello world", 80, some (200, 200), some [], none, none, some [itemGood]⟩

/-- A recognition result whose only region covers 90% of the 100×100 image. -/
def resHuge : OCRResult :=
  ⟨"BIG", 90, some (100, 100),
    some [⟨some ⟨0, 0, 100, 90⟩, some ("Some big page text here"), some 95, none, none⟩],
    none, none, none⟩

/-- A recognition result without image dimensions: one region of area 990000
(dropped against the of 1000×1000 default) and one qualifying region. -/
def resNoSize : OCRResult :=
  ⟨"Hello there friend", 80, none,
    some [⟨some ⟨0, 0, 1000, 990⟩, some ("Hello there friend"), some 95, none, none⟩,
      ⟨some ⟨10, 10, 110, 60⟩, some ("Hello there"), some 90, none, none⟩],
    none, none, none⟩

/-- A recognition result with usable text but no qualifying region in any tier. -/
def resFallback : OCRResult :=
  ⟨"Hello there friend", 80, some (500, 500), none, none, none, none⟩

/-- A processing environment in which the image never loads: `processImage`
returns before its `try`/`finally`. -/
def envSkipLoad : ImgEnv :=
  ⟨false, true, true, false, ⟨"", 0, none, none, none, none, none⟩, false⟩

/-- A fully ready processing environment taking the whole-image fallback path. -/
def envFallback : ImgEnv := ⟨true, true, true, false, resFallback, false⟩

/-- Delivery outcomes: no receiver on the first attempt, success afterwards. -/
def ocRetry : Nat → SendOutcome :=
  fun n => if n = 0 then SendOutcome.noReceiver else SendOutcome.ok

end MangaTL

namespace MangaTL

/-- Smoke checks on the filter (spec §8 testable properties). -/
example : isGarbage ("HHHHH") = true := by decide

example : isGarbage ("the quick brown fox") = false := by decide

example : isGarbage ("one two three four one two three four") = true := by decide

example : inflateBBox ⟨0, 10, 100, 60⟩ 500 500 = ⟨0, 4, 106, 66⟩ :=
  of_decide_eq_true (by with_unfolding_all rfl)

/-! ## Claim C5: inflation and clamping of bounding boxes -/

/-- Claim C5: `inflateBBox` expands a box by exactly `max(6, 0.08 × min(w, h))`
on all four sides and clamps to `[0, source width] × [0, source height]` (the
first conjunct equates it with the definition transcribed from the spec's
words), so the result never exceeds the source image's pixel bounds (second
conjunct); in particular a 100×50 box is padded by 6 on all sides and a box at
`x0 = 0` stays at 0. -/
theorem inflate_clamp_spec :
    (∀ (b : BBox) (W H : ℚ), inflateBBox b W H = specInflateClamp b W H) ∧
    (∀ (b : BBox) (W H : ℚ), 0 ≤ (inflateBBox b W H).x0 ∧ (inflateBBox b W H).x1 ≤ W ∧
      0 ≤ (inflateBBox b W H).y0 ∧ (inflateBBox b W H).y1 ≤ H) ∧
    specPad ⟨0, 10, 100, 60⟩ = 6 ∧
    inflateBBox ⟨0, 10, 100, 60⟩ 500 500 = ⟨0, 4, 106, 66⟩ := by
  refine ⟨?_, ?_, ?_, ?_⟩
  · intro b W H
    simp [inflateBBox, specInflateClamp, specPad, mul_comm]
  · intro b W H
    exact ⟨le_max_left 0 _, min_le_left W _, le_max_left 0 _, min_le_left H _⟩
  · exact of_decide_eq_true (by with_unfolding_all rfl)
  · exact of_decide_eq_true (by with_unfolding_all rfl)

/-! ## Claim C6: blacklist fast reject -/

/-- Claim C6: an input that matches the blacklist of known degenerate outputs
is rejected (`null`) immediately, with zero remote and zero local translation
invocations. -/
theorem blacklist_fast_reject (env : TransEnv) (text : String)
    (h : blacklistHit text = true) :
    translateText env text = ⟨TransOutcome.value none, 0, 0⟩ := by
  simp [translateText, h]

/-- Witness for C6 at a concrete blacklisted input. -/
theorem blacklist_fast_reject_witness :
    translateText ⟨some ("x"), true, "y"⟩ "The SQ is here" =
      ⟨TransOutcome.value none, 0, 0⟩ :=
  blacklist_fast_reject ⟨some ("x"), true, "y"⟩ "The SQ is here" (by decide)

/-! ## Claim C1: where the anti-hallucination validator runs -/

/-- Counterexample to claim C1: the remote path returns its result without any
validation.  `loopStr` contains the exact 4-word window `the cat ran far`
3 times and is longer than 50 characters, yet when the remote call succeeds
with it, `translateText` returns it instead of the rejected outcome `null`. -/
theorem remote_skips_validator_cex :
    hasLoopNgram loopStr (splitWords loopStr) = true ∧
    50 < loopStr.length ∧
    validateTranslated loopStr = none ∧
    translateText ⟨some loopStr, true, ""⟩ "hello" =
      ⟨TransOutcome.value (some loopStr), 1, 0⟩ := by decide

/-- Amended claim C1: the repetition validator runs only on the local-fallback
path.  When the remote result is falsy and the local model yields a string of
length > 50 with more than 12 words in which some 4-word window recurs 3+
times, `translateText` returns rejected (`null`). -/
theorem local_ngram_loop_rejected (env : TransEnv) (text : String)
    (hbl : blacklistHit text = false) (hro : jsTruthyStr env.remote = false)
    (hini : env.localInitOk = true) (hlen : 50 < env.localOut.length)
    (hw : 12 < (splitWords env.localOut).length)
    (hng : hasLoopNgram env.localOut (splitWords env.localOut) = true) :
    (translateText env text).result = TransOutcome.value none := by
  simp only [translateText, hbl, hro, hini, Bool.false_eq_true, if_false, if_true]
  simp only [validateTranslated, if_pos hlen]
  split_ifs with h1 h2
  · rfl
  · rfl
  · exact absurd ⟨hw, hng⟩ h2

/-- Witness for the amended C1: a looping local-fallback output is rejected. -/
theorem local_ngram_loop_rejected_witness :
    (translateText ⟨none, true, loopStr⟩ "hi").result = TransOutcome.value none :=
  local_ngram_loop_rejected ⟨none, true, loopStr⟩ "hi" (by decide) (by decide)
    (by decide) (by decide) (by decide) (by decide)

/-! ## Claim C4: granularity tier cascade -/

/-- Claim C4: `extractBlocks` tries the tiers in the fixed order blocks,
paragraphs, lines, words; it returns the first tier that filters to a
non-empty list and never merges tiers (first four conjuncts); within the
chosen tier the filtered list is a sublist of the tier's mapped items, so the
recognizer's original order is preserved (last conjunct). -/
theorem tier_cascade_spec :
    (∀ r : OCRResult, mapItems r r.blocks ≠ [] → extractBlocks r = mapItems r r.blocks) ∧
    (∀ r : OCRResult, mapItems r r.blocks = [] → mapItems r r.paragraphs ≠ [] →
      extractBlocks r = mapItems r r.paragraphs) ∧
    (∀ r : OCRResult, mapItems r r.blocks = [] → mapItems r r.paragraphs = [] →
      mapItems r r.lines ≠ [] → extractBlocks r = mapItems r r.lines) ∧
    (∀ r : OCRResult, mapItems r r.blocks = [] → mapItems r r.paragraphs = [] →
      mapItems r r.lines = [] → extractBlocks r = mapItems r r.words) ∧
    (∀ (r : OCRResult) (tier : Option (List OCRItem)),
      List.Sublist (mapItems r tier) ((tier.getD []).map toMapped)) := by
  refine ⟨?_, ?_, ?_, ?_, ?_⟩
  · intro r h
    simp [extractBlocks, List.isEmpty_iff, h]
  · intro r h1 h2
    simp [extractBlocks, List.isEmpty_iff, h1, h2]
  · intro r h1 h2 h3
    simp [extractBlocks, List.isEmpty_iff, h1, h2, h3]
  · intro r h1 h2 h3
    simp [extractBlocks, List.isEmpty_iff, h1, h2, h3]
  · intro r tier
    exact List.filter_sublist _

/-- Witness for C4 at a result whose coarse tiers are empty: the word-tier
regions are returned, in order. -/
theorem tier_cascade_spec_witness :
    extractBlocks resWordsOnly = mapItems resWordsOnly resWordsOnly.words ∧
    mapItems resWordsOnly resWordsOnly.words = [toMapped itemGood] :=
  ⟨tier_cascade_spec.2.2.2.1 resWordsOnly (of_decide_eq_true (by with_unfolding_all rfl))
      (of_decide_eq_true (by with_unfolding_all rfl))
      (of_decide_eq_true (by with_unfolding_all rfl)),
    of_decide_eq_true (by with_unfolding_all rfl)⟩

/-! ## Claim C9: the 80% area exclusion -/

/-- Every block surviving the `mapItems` filter satisfies the area bound. -/
theorem keepBlock_area_le (imgW imgH : ℚ) (b : MappedBlock) (bb : BBox)
    (hbb : b.bbox = some bb) (hk : keepBlock imgW imgH b = true) :
    (bb.x1 - bb.x0) * (bb.y1 - bb.y0) ≤ imgW * imgH * (8 / 10) := by
  unfold keepBlock at hk
  rw [hbb] at hk
  split_ifs at hk <;> simp at hk <;> exact hk.1

/-- Every extracted block came through the `mapItems` filter of some tier. -/
theorem mem_extractBlocks_keep (r : OCRResult) (b : MappedBlock)
    (hb : b ∈ extractBlocks r) :
    keepBlock (imgWidthOf r) (imgHeightOf r) b = true := by
  simp only [extractBlocks] at hb
  split_ifs at hb <;>
    exact (List.mem_filter.mp hb).2

/-- Claim C9: any region whose bounding-box area exceeds 80% of the total
image area is excluded — equivalently, every region returned by
`extractBlocks` has area at most 80% of the image area (first conjunct); in
particular a region covering 90% of the image is excluded (second conjunct). -/
theorem area_filter_spec :
    (∀ (r : OCRResult) (b : MappedBlock) (bb : BBox), b ∈ extractBlocks r →
      b.bbox = some bb →
      (bb.x1 - bb.x0) * (bb.y1 - bb.y0) ≤ imgWidthOf r * imgHeightOf r * (8 / 10)) ∧
    extractBlocks resHuge = [] := by
  refine ⟨?_, of_decide_eq_true (by with_unfolding_all rfl)⟩
  intro r b bb hb hbb
  exact keepBlock_area_le _ _ b bb hbb (mem_extractBlocks_keep r b hb)

/-- Witness for C9: the surviving concrete region's area respects the bound. -/
theorem area_filter_spec_witness :
    ((⟨10, 10, 60, 30⟩ : BBox).x1 - (⟨10, 10, 60, 30⟩ : BBox).x0) *
        ((⟨10, 10, 60, 30⟩ : BBox).y1 - (⟨10, 10, 60, 30⟩ : BBox).y0) ≤
      imgWidthOf resWordsOnly * imgHeightOf resWordsOnly * (8 / 10) :=
  area_filter_spec.1 resWordsOnly (toMapped itemGood) ⟨10, 10, 60, 30⟩
    (of_decide_eq_true (by with_unfolding_all rfl))
    (of_decide_eq_true (by with_unfolding_all rfl))

/-! ## Claim C10: the 1000×1000 default image size -/

/-- Claim C10: when the recognition result omits image dimensions, the area
rule is evaluated against a default size of 1000×1000, so the extraction is
exactly what it would be on the same result with an explicit 1000×1000 size
(reference area 1,000,000). -/
theorem default_image_size_spec (r : OCRResult) (h : r.imageSize = none) :
    imgWidthOf r = 1000 ∧ imgHeightOf r = 1000 ∧
    extractBlocks r = extractBlocks { r with imageSize := some (1000, 1000) } := by
  refine ⟨?_, ?_, ?_⟩
  · simp [imgWidthOf, h, jsOrQ]
  · simp [imgHeightOf, h, jsOrQ]
  · norm_num [extractBlocks, mapItems, imgWidthOf, imgHeightOf, h, jsOrQ]

/-- Witness for C10 at a concrete result without image dimensions. -/
theorem default_image_size_spec_witness :
    imgWidthOf resNoSize = 1000 ∧ imgHeightOf resNoSize = 1000 ∧
    extractBlocks resNoSize = extractBlocks { resNoSize with imageSize := some (1000, 1000) } :=
  default_image_size_spec resNoSize rfl

/-! ## Claim C2: the per-image idempotency flags -/

/-- Counterexample to claim C2: on the early skip path (the image fails to
load) `processImage` returns before its `try`/`finally`, so the `processing`
flag set on entry is never cleared — the claim says `processing` is cleared on
every exit path. -/
theorem early_skip_keeps_processing_cex :
    (processOneImage envSkipLoad ⟨false, false⟩).processing = true := by decide

/-- Amended claim C2: processing is skipped when either flag is already set;
`processing` is set on entry; on runs that reach the image-acquisition
`try`/`finally`, `processing` is cleared and `processed` is set if and only if
the run succeeded; but on the early skip paths (load failure, layout timeout,
overlay-size timeout) `processing` remains set and `processed` stays unset. -/
theorem processing_flags_spec (env : ImgEnv) (f : ImgFlags) :
    ((f.processed = true ∨ f.processing = true) → processOneImage env f = f) ∧
    (f.processed = false → f.processing = false →
      ((env.imageLoads = false ∨ env.layoutReady = false ∨ env.overlayReady = false) →
        processOneImage env f = ⟨true, false⟩) ∧
      (env.imageLoads = true → env.layoutReady = true → env.overlayReady = true →
        processOneImage env f = ⟨false, (runTryBody env).success⟩)) := by
  obtain ⟨fp, fd⟩ := f
  refine ⟨?_, ?_⟩
  · intro h
    rcases h with h | h <;> simp_all [processOneImage]
  · intro hd hp
    subst hd hp
    constructor
    · intro h
      rcases h with h | h | h <;> simp_all [processOneImage]
    · intro h1 h2 h3
      simp [processOneImage, h1, h2, h3]

/-- Witness for the amended C2: a clean run through the `try`/`finally` clears
`processing` and records success in `processed`. -/
theorem processing_flags_spec_witness :
    processOneImage envFallback ⟨false, false⟩ = ⟨false, (runTryBody envFallback).success⟩ ∧
    (runTryBody envFallback).success = true :=
  ⟨((processing_flags_spec envFallback ⟨false, false⟩).2 rfl rfl).2 rfl rfl rfl,
    of_decide_eq_true (by with_unfolding_all rfl)⟩

/-! ## Claim C3: clamping of rendered overlay boxes -/

/-- Counterexample to claim C3: `makeOverlayBox` enforces a minimum width of
60, so in a container of width 40 the rendered box has width 60 and extends
past the container's right edge — the claim says no rendered box ever extends
outside its container, for all container dimensions. -/
theorem min_width_escapes_container_cex :
    (makeOverlayBox 0 0 10 "hi" none (some 40) (some 40)).left = 0 ∧
    (makeOverlayBox 0 0 10 "hi" none (some 40) (some 40)).width = 60 ∧
    (40 : ℚ) < (makeOverlayBox 0 0 10 "hi" none (some 40) (some 40)).left +
        (makeOverlayBox 0 0 10 "hi" none (some 40) (some 40)).width :=
  of_decide_eq_true (by with_unfolding_all rfl)

/-- Amended claim C3: for containers at least 60 wide (60 is the enforced
minimum box width) and of nonnegative height, and nonnegative min-height, the
box placed by `makeOverlayBox` is clamped inside the container: its left edge
is at least 0, its right edge at most the container width, its top at least 0
and at most the container height, and its top plus its min-height at most the
container height. -/
theorem overlay_box_contained (x y w : ℚ) (t : String) (mh : Option ℚ) (cw ch : ℚ)
    (hcw : 60 ≤ cw) (hch : 0 ≤ ch) (hmh : 0 ≤ mh.getD 0) :
    0 ≤ (makeOverlayBox x y w t mh (some cw) (some ch)).left ∧
    (makeOverlayBox x y w t mh (some cw) (some ch)).left +
      (makeOverlayBox x y w t mh (some cw) (some ch)).width ≤ cw ∧
    0 ≤ (makeOverlayBox x y w t mh (some cw) (some ch)).top ∧
    (makeOverlayBox x y w t mh (some cw) (some ch)).top ≤ ch ∧
    (makeOverlayBox x y w t mh (some cw) (some ch)).top +
      ((makeOverlayBox x y w t mh (some cw) (some ch)).minH.getD 0) ≤ ch := by
  have hWle : max 60 (min w cw) ≤ cw := max_le hcw (min_le_right w cw)
  have hxgen : max 0 (min x (cw - max 60 (min w cw))) + max 60 (min w cw) ≤ cw := by
    have hx : max 0 (min x (cw - max 60 (min w cw))) ≤ cw - max 60 (min w cw) :=
      max_le (by linarith) (min_le_right _ _)
    linarith
  have hygen : ∀ m : ℚ, 0 ≤ m → max 0 (min y (ch - m)) ≤ ch := by
    intro m hm
    rcases le_total m ch with hmc | hmc
    · exact max_le hch (le_trans (min_le_right _ _) (by linarith))
    · have h0 : max 0 (min y (ch - m)) = 0 :=
        max_eq_left (le_trans (min_le_right _ _) (by linarith))
      rw [h0]
      exact hch
  have hybot : ∀ m : ℚ, max 0 (min y (ch - m)) + min m ch ≤ ch := by
    intro m
    rcases le_total m ch with hmc | hmc
    · have hy : max 0 (min y (ch - m)) ≤ ch - m :=
        max_le (by linarith) (min_le_right _ _)
      have hmm : min m ch = m := min_eq_left hmc
      rw [hmm]
      linarith
    · have h0 : max 0 (min y (ch - m)) = 0 :=
        max_eq_left (le_trans (min_le_right _ _) (by linarith))
      have hmm : min m ch = ch := min_eq_right hmc
      rw [h0, hmm]
      linarith
  rcases mh with _ | m
  · refine ⟨le_max_left 0 _, hxgen, le_max_left 0 _, ?_, ?_⟩
    · show max 0 (min y (ch - (0 : ℚ))) ≤ ch
      exact hygen 0 le_rfl
    · show max 0 (min y (ch - (0 : ℚ))) + (0 : ℚ) ≤ ch
      rw [add_zero]
      exact hygen 0 le_rfl
  · have hm : 0 ≤ m := hmh
    refine ⟨le_max_left 0 _, hxgen, le_max_left 0 _, ?_, ?_⟩
    · show max 0 (min y (ch - m)) ≤ ch
      exact hygen m hm
    · by_cases hm0 : m = 0
      · subst hm0
        show max 0 (min y (ch - (0 : ℚ))) +
          (Option.getD (if (0 : ℚ) = 0 then none else some (min 0 ch)) 0) ≤ ch
        rw [if_pos rfl]
        show max 0 (min y (ch - (0 : ℚ))) + (0 : ℚ) ≤ ch
        rw [add_zero]
        exact hygen 0 le_rfl
      · show max 0 (min y (ch - m)) +
          (Option.getD (if m = 0 then none else some (min m ch)) 0) ≤ ch
        rw [if_neg hm0]
        show max 0 (min y (ch - m)) + min m ch ≤ ch
        exact hybot m

/-- Witness for the amended C3 at a concrete oversized request in a 300×100
container. -/
theorem overlay_box_contained_witness :
    0 ≤ (makeOverlayBox 500 500 200 "t" (some 50) (some 300) (some 100)).left ∧
    (makeOverlayBox 500 500 200 "t" (some 50) (some 300) (some 100)).left +
      (makeOverlayBox 500 500 200 "t" (some 50) (some 300) (some 100)).width ≤ 300 ∧
    0 ≤ (makeOverlayBox 500 500 200 "t" (some 50) (some 300) (some 100)).top ∧
    (makeOverlayBox 500 500 200 "t" (some 50) (some 300) (some 100)).top ≤ 100 ∧
    (makeOverlayBox 500 500 200 "t" (some 50) (some 300) (some 100)).top +
      ((makeOverlayBox 500 500 200 "t" (some 50) (some 300) (some 100)).minH.getD 0) ≤ 100 :=
  overlay_box_contained 500 500 200 "t" (some 50) 300 100
    (of_decide_eq_true (by with_unfolding_all rfl))
    (of_decide_eq_true (by with_unfolding_all rfl))
    (of_decide_eq_true (by with_unfolding_all rfl))

/-! ## Claim C7: the delivery protocol's inject-and-retry recovery -/

/-- Claim C7: over all delivery runs, at most one injection is ever attempted
and the number of delivery attempts never exceeds the fixed bound
`maxRetries = 3`; a failure other than "no receiver" is terminal after a
single attempt with no injection; when the receiver is absent on the first
attempt and injection is permitted, there is exactly one injection and one
resend, and if the resend succeeds the log records both attempts; when
injection is not permitted the failure is terminal and not retried. -/
theorem delivery_retry_spec :
    (∀ (io : Bool) (oc : Nat → SendOutcome), (sendMessageRun io oc).injections ≤ 1) ∧
    (∀ (io : Bool) (oc : Nat → SendOutcome), (sendMessageRun io oc).attempts ≤ maxRetries) ∧
    (∀ (io : Bool) (oc : Nat → SendOutcome), oc 0 = SendOutcome.otherErr →
      (sendMessageRun io oc).status = DStatus.error ∧ (sendMessageRun io oc).attempts = 1 ∧
      (sendMessageRun io oc).injections = 0) ∧
    (∀ oc : Nat → SendOutcome, oc 0 = SendOutcome.noReceiver → oc 1 = SendOutcome.ok →
      (sendMessageRun true oc).injections = 1 ∧ (sendMessageRun true oc).attempts = 2 ∧
      (sendMessageRun true oc).status = DStatus.translating ∧
      (LogLevel.info, "Sending message to content script... (attempt 1/3)") ∈
        (sendMessageRun true oc).logs ∧
      (LogLevel.info, "Sending message to content script... (attempt 2/3)") ∈
        (sendMessageRun true oc).logs) ∧
    (∀ oc : Nat → SendOutcome, oc 0 = SendOutcome.noReceiver →
      (sendMessageRun false oc).status = DStatus.error ∧
      (sendMessageRun false oc).injections = 1 ∧ (sendMessageRun false oc).attempts = 1) := by
  refine ⟨?_, ?_, ?_, ?_, ?_⟩
  · intro io oc
    cases h0 : oc 0 <;> cases h1 : oc 1 <;> cases io <;>
      simp [sendMessageRun, sendMessageAux, maxRetries, h0, h1]
  · intro io oc
    cases h0 : oc 0 <;> cases h1 : oc 1 <;> cases io <;>
      simp [sendMessageRun, sendMessageAux, maxRetries, h0, h1]
  · intro io oc h
    cases io <;> simp [sendMessageRun, sendMessageAux, maxRetries, h]
  · intro oc h0 h1
    simp [sendMessageRun, sendMessageAux, maxRetries, h0, h1]
    refine ⟨?_, ?_⟩ <;> decide
  · intro oc h0
    simp [sendMessageRun, sendMessageAux, maxRetries, h0]

/-- Witness for C7: receiver absent on the first attempt, injection succeeds,
resend succeeds; exactly one injection, two logged attempts. -/
theorem delivery_retry_spec_witness :
    (sendMessageRun true ocRetry).injections = 1 ∧ (sendMessageRun true ocRetry).attempts = 2 ∧
    (sendMessageRun true ocRetry).status = DStatus.translating ∧
    (LogLevel.info, "Sending message to content script... (attempt 1/3)") ∈
      (sendMessageRun true ocRetry).logs ∧
    (LogLevel.info, "Sending message to content script... (attempt 2/3)") ∈
      (sendMessageRun true ocRetry).logs :=
  delivery_retry_spec.2.2.2.1 ocRetry (by decide) (by decide)

/-! ## Claim C8: the strict gate on the whole-image fallback translation -/

/-- A list is trimmed to empty exactly when it is all whitespace. -/
theorem trimList_nil_iff (l : List Char) :
    trimList l = [] ↔ ∀ c ∈ l, isWS c = true := by
  unfold trimList
  rw [List.reverse_eq_nil_iff, List.dropWhile_eq_nil_iff]
  constructor
  · intro h c hc
    have hsp : l.takeWhile isWS ++ l.dropWhile isWS = l :=
      List.takeWhile_append_dropWhile isWS l
    rw [← hsp] at hc
    rcases List.mem_append.mp hc with h1 | h1
    · exact List.mem_takeWhile_imp h1
    · exact h c (List.mem_reverse.mpr h1)
  · intro h c hc
    exact h c ((List.dropWhile_sublist isWS).subset (List.mem_reverse.mp hc))

/-- Collapsing whitespace maps an all-whitespace list to an all-whitespace
list. -/
theorem collapse_all_ws (l : List Char) (h : ∀ c ∈ l, isWS c = true) :
    ∀ b : Bool, ∀ c ∈ collapseWSAux b l, isWS c = true := by
  induction l with
  | nil =>
    intro b c hc
    simp [collapseWSAux] at hc
  | cons a tl ih =>
    intro b c hc
    have ha : isWS a = true := h a (List.mem_cons_self a tl)
    have htl : ∀ x ∈ tl, isWS x = true := fun x hx => h x (List.mem_cons_of_mem a hx)
    rw [collapseWSAux, ha] at hc
    simp only [if_true] at hc
    cases b with
    | true => exact ih htl true c hc
    | false =>
      rcases List.mem_cons.mp hc with h1 | h1
      · subst h1
        decide
      · exact ih htl true c h1

/-- A string whose trim is empty also normalizes to the empty string. -/
theorem jsTrim_empty_normalize (s : String) (h : jsTrim s = "") : normalizeStr s = "" := by
  have hl : trimList s.toList = [] := congrArg String.data h
  have hws : ∀ c ∈ s.toList, isWS c = true := (trimList_nil_iff s.toList).mp hl
  have h2 : trimList (collapseWSAux false s.toList) = [] :=
    (trimList_nil_iff _).mpr (collapse_all_ws s.toList hws false)
  unfold normalizeStr
  rw [h2]

/-- Claim C8: when OCR produced a result and the extractor yields zero
regions, exactly one whole-image translation call is made if and only if the
overall confidence is at least 30 and the normalized full text passes the
garbage filter; otherwise no translation call is made for the image. -/
theorem whole_image_gate_spec (env : ImgEnv) (hocr : env.ocrThrows = false)
    (hblocks : extractBlocks env.ocr = []) :
    ((runTryBody env).wholeCalls = 1 ↔
      (30 ≤ env.ocr.confidence ∧ isGarbage (normalizeStr env.ocr.text) = false)) ∧
    (runTryBody env).blockCalls = 0 := by
  unfold runTryBody
  rw [hocr]
  simp only [Bool.false_eq_true, if_false]
  by_cases htrim : jsTrim env.ocr.text = ""
  · rw [if_pos htrim]
    refine ⟨⟨fun h => by simp at h, fun h => ?_⟩, rfl⟩
    exfalso
    have hg : isGarbage (normalizeStr env.ocr.text) = true := by
      rw [jsTrim_empty_normalize _ htrim]
      decide
    rw [h.2] at hg
    exact Bool.false_ne_true hg
  · rw [if_neg htrim, hblocks]
    simp only [List.isEmpty_nil, if_true]
    by_cases hg : env.ocr.confidence < 30 ∨ isGarbage (normalizeStr env.ocr.text) = true
    · rw [if_pos hg]
      refine ⟨⟨fun h => by simp at h, fun h => ?_⟩, rfl⟩
      exfalso
      rcases hg with hg | hg
      · linarith [h.1]
      · rw [h.2] at hg
        exact Bool.false_ne_true hg
    · rw [if_neg hg]
      push_neg at hg
      have hc : 30 ≤ env.ocr.confidence := hg.1
      have hgb : isGarbage (normalizeStr env.ocr.text) = false := by
        cases hb : isGarbage (normalizeStr env.ocr.text)
        · rfl
        · exact absurd hb hg.2
      cases hfb : env.fallbackThrows <;> simp [hfb, hc, hgb]

/-- Witness for C8 at a result with no regions, confidence 80 and clean text:
exactly one whole-image translation call. -/
theorem whole_image_gate_spec_witness :
    (runTryBody envFallback).wholeCalls = 1 ∧ (runTryBody envFallback).blockCalls = 0 :=
  have h := whole_image_gate_spec envFallback rfl
    (of_decide_eq_true (by with_unfolding_all rfl))
  ⟨h.1.mpr ⟨of_decide_eq_true (by with_unfolding_all rfl), by decide⟩, h.2⟩

end MangaTL
